import Mathlib

/-!
Verification of the code-quality analysis dashboard (repository
`S0NDDRE/CodeAgneter-`).

The development shallowly embeds:
* the quality-scoring engine (metrics, issue detectors, score, project
  aggregation) — the server-side engine is not part of the surviving
  sources, so it is modelled from the specification (each such definition
  is marked `Modelled from the spec:`);
* the frontend helpers that are present in the sources:
  `getLanguageFromFile`, `displayProjectAnalysis`'s issue table,
  `escapeHtml`, `sendMessage`, `saveChatHistory`.
-/

namespace CodeAgent

/-- Issue severity, one of the three enumerated values. -/
inductive Severity
  | critical
  | warning
  | info
deriving DecidableEq, Repr

/-- A single issue produced by one detector rule. -/
structure Issue where
  severity : Severity
  line : Option Nat
  message : String
  file : Option String
deriving DecidableEq, Repr

/-- Per-file metrics, computed once from the raw text. -/
structure Metrics where
  total_lines : Nat
  non_empty_lines : Nat
  comment_lines : Nat
  average_line_length : Nat
deriving DecidableEq, Repr

/-- Result of analyzing one source file. -/
structure Analysis where
  filename : String
  language : String
  quality_score : Nat
  summary : String
  metrics : Metrics
  issues : List Issue
  suggestions : List String
deriving DecidableEq, Repr

/-! Text primitives. The JavaScript string operations the sources use
(`split`, `trim`, `startsWith`, `includes`, `join`) are embedded as
structurally recursive functions over the character list of a string, so
that every definition evaluates on concrete inputs. -/

/-- Lowercase a string character by character. -/
def lowerStr (s : String) : String :=
  String.mk (s.data.map Char.toLower)

/-- Does the character list `s` start with `pat`? -/
def charsStartWith : List Char → List Char → Bool
  | _, [] => true
  | [], _ :: _ => false
  | a :: as, b :: bs => a == b && charsStartWith as bs

/-- Does `pat` occur as a contiguous run inside `s`? -/
def charsContain (s pat : List Char) : Bool :=
  match s with
  | [] => charsStartWith [] pat
  | _ :: rest => charsStartWith s pat || charsContain rest pat

/-- Strip leading and trailing whitespace from a character list. -/
def trimChars (l : List Char) : List Char :=
  ((l.dropWhile Char.isWhitespace).reverse.dropWhile Char.isWhitespace).reverse

/-- `trim`: strip leading and trailing whitespace. -/
def trimS (s : String) : String :=
  String.mk (trimChars s.data)

/-- `startsWith` on strings. -/
def startsWithS (s pat : String) : Bool :=
  charsStartWith s.data pat.data

/-- Split a character list on a separator character (JavaScript
`split`: the empty input yields one empty piece, separators at the ends
yield empty pieces). -/
def splitOnChar (sep : Char) : List Char → List (List Char)
  | [] => [[]]
  | c :: cs =>
    let r := splitOnChar sep cs
    if c == sep then [] :: r
    else
      match r with
      | [] => [[c]]
      | h :: t => (c :: h) :: t

/-- `split` on strings, one-character separator. -/
def splitS (sep : Char) (s : String) : List String :=
  (splitOnChar sep s.data).map String.mk

/-- `join` with a one-character separator. -/
def joinWith (sep : Char) : List String → String
  | [] => ""
  | [s] => s
  | s :: rest => s ++ String.singleton sep ++ joinWith sep rest

/-- Static extension table of `getLanguageFromFile`
(`frontend/src/components/chat-enhanced.js`, lines 255-262). -/
def extensionTable : List (String × String) :=
  [("py", "python"), ("js", "javascript"), ("jsx", "javascript"),
   ("ts", "typescript"), ("tsx", "typescript"), ("java", "java"),
   ("cpp", "cpp"), ("cc", "cpp"), ("c", "c"), ("h", "c"),
   ("go", "go"), ("rs", "rust"), ("sql", "sql"),
   ("html", "html"), ("css", "css"), ("json", "json"),
   ("yaml", "yaml"), ("yml", "yaml")]

/-- The extension key the code extracts: `filename.split('.').pop().toLowerCase()`
— the last dot-separated segment, lowercased (the whole name when there is
no dot). -/
def extOf (filename : String) : String :=
  lowerStr ((splitS '.' filename).getLastD "")

/-- Property names every plain JavaScript object literal inherits from
`Object.prototype`: an index access `obj[key]` yields the inherited value
for these when `key` is not an own key, and each inherited value is a
truthy non-string (a function, or `Object.prototype` itself for
`__proto__`). -/
def objectPrototypeKeys : List String :=
  ["constructor", "hasOwnProperty", "isPrototypeOf", "propertyIsEnumerable",
   "toLocaleString", "toString", "valueOf", "__proto__",
   "__defineGetter__", "__defineSetter__", "__lookupGetter__",
   "__lookupSetter__"]

/-- Value of the JavaScript expression `languages[ext] || 'text'`: a
string (an own entry of the table, or the "text" fallback when the access
is `undefined` and hence falsy), or the truthy non-string value inherited
from `Object.prototype` when `ext` collides with an inherited property
name, in which case `|| 'text'` does not fire. -/
inductive JsLookupResult
  | str (tag : String)
  | inheritedProp (name : String)
deriving DecidableEq, Repr

/-- `ChatComponent.getLanguageFromFile`: index the object literal
`languages` with the extracted extension — an own key yields its table
value, a key inherited from `Object.prototype` yields the inherited
truthy non-string value, and any other key yields `undefined`, so
`|| 'text'` falls back to "text". -/
def getLanguageFromFile (filename : String) : JsLookupResult :=
  let ext := extOf filename
  match extensionTable.lookup ext with
  | some lang => JsLookupResult.str lang
  | none =>
    if objectPrototypeKeys.any (fun k => decide (k = ext)) then
      JsLookupResult.inheritedProp ext
    else JsLookupResult.str "text"

/-- Modelled from the spec: the engine's language-detector collaborator
(§6) — "maps filename/extension to a language tag — may be a simple
static table"; unknown extensions fall back to the generic "text"
treatment (§4.1 input contract). The server-side engine is missing from
the sources. -/
def detectLanguage (filename : String) : String :=
  match extensionTable.lookup (extOf filename) with
  | some lang => lang
  | none => "text"

/-- Modelled from the spec: the language-specific comment marker used by the
metrics pass and the missing-documentation detector ("#" for Python-like,
"//" for C-like); `none` disables comment detection (the degraded
"plaintext" mode). The server-side engine is missing from the sources. -/
def commentMarker (lang : String) : Option String :=
  if lang = "python" || lang = "yaml" then some "#"
  else if lang = "javascript" || lang = "typescript" || lang = "java"
          || lang = "cpp" || lang = "c" || lang = "go" || lang = "rust" then
    some "//"
  else none

/-- A line counts as non-empty when it is not whitespace-only. -/
def lineIsNonEmpty (l : String) : Bool :=
  !(trimChars l.data).isEmpty

/-- A line counts as a comment when its trimmed form starts with the
language's comment marker (never, in plaintext mode). -/
def lineIsComment (lang : String) (l : String) : Bool :=
  match commentMarker lang with
  | some marker => startsWithS (trimS l) marker
  | none => false

/-- Modelled from the spec: Metrics from a single pass over the lines —
total lines, non-whitespace-only lines, comment lines, and the mean
character length of non-empty lines (0 when there are none, so the
empty file is defined; documented convention). -/
def computeMetrics (lang : String) (lines : List String) : Metrics :=
  let ne := lines.filter lineIsNonEmpty
  { total_lines := lines.length
    non_empty_lines := ne.length
    comment_lines := (lines.filter (lineIsComment lang)).length
    average_line_length :=
      if ne.length = 0 then 0 else (ne.map String.length).sum / ne.length }

/-- Substring test (JavaScript `includes`; empty patterns never count). -/
def strContains (s pat : String) : Bool :=
  !pat.data.isEmpty && charsContain s.data pat.data

/-- The identifier bound by an import statement, when the trimmed line is
one ("import X ..." binds "X"). -/
def importedName (l : String) : Option String :=
  let t := trimChars l.data
  if charsStartWith t ("import ").data then
    some (String.mk ((splitOnChar ' ' (trimChars (t.drop 7))).headD []))
  else none

/-- Modelled from the spec: unused-import detector — import statements
whose bound name never reappears later in the text yield an info issue. -/
def unusedImportIssues (lines : List String) : List Issue :=
  lines.enum.filterMap fun p =>
    match importedName p.2 with
    | some name =>
      if name != "" && !(strContains (joinWith '\n' (lines.drop (p.1 + 1))) name) then
        some { severity := Severity.info, line := some (p.1 + 1),
               message := "Unused import: " ++ name, file := none }
      else none
    | none => none

/-- Modelled from the spec: the deny-list of identifier names of the
hardcoded-secret detector. -/
def secretNames : List String :=
  ["password", "secret", "key", "token"]

/-- Modelled from the spec: a line is a hardcoded secret when it assigns a
literal string to an identifier matching the deny-list. -/
def isSecretLine (l : String) : Bool :=
  match splitS '=' l with
  | lhs :: rhs :: rest =>
    secretNames.any (fun n => strContains (lowerStr lhs) n)
      && (strContains (joinWith '=' (rhs :: rest)) "\""
            || strContains (joinWith '=' (rhs :: rest)) "\x27")
  | _ => false

/-- Modelled from the spec: hardcoded-secret detector, a critical issue per
matching line. -/
def hardcodedSecretIssues (lines : List String) : List Issue :=
  lines.enum.filterMap fun p =>
    if isSecretLine p.2 then
      some { severity := Severity.critical, line := some (p.1 + 1),
             message := "Hardcoded secret detected", file := none }
    else none

/-- Modelled from the spec: line-length detector, an info issue for every
line longer than the fixed 120-character threshold. -/
def lineLengthIssues (lines : List String) : List Issue :=
  lines.enum.filterMap fun p =>
    if 120 < p.2.length then
      some { severity := Severity.info, line := some (p.1 + 1),
             message := "Line exceeds 120 characters", file := none }
    else none

/-- A line that defines a class or function. -/
def isDefLine (l : String) : Bool :=
  let t := trimS l
  startsWithS t "def " || startsWithS t "class " || startsWithS t "function "

/-- Modelled from the spec: missing-documentation detector — a class or
function definition with no adjacent doc-comment (neither the line above
nor the line below is a comment) yields a warning; disabled in plaintext
mode. -/
def missingDocIssues (lang : String) (lines : List String) : List Issue :=
  match commentMarker lang with
  | none => []
  | some _ =>
    lines.enum.filterMap fun p =>
      if isDefLine p.2
          && !(lineIsComment lang (lines.getD (p.1 + 1) ""))
          && !(if p.1 = 0 then false else lineIsComment lang (lines.getD (p.1 - 1) "")) then
        some { severity := Severity.warning, line := some (p.1 + 1),
               message := "Missing documentation", file := none }
      else none

/-- Modelled from the spec: fixed severity-weight constants, ordered
critical > warning > info (the numeric values are the documented choice
the spec leaves to the implementer). -/
def severityWeight : Severity → Nat
  | Severity.critical => 15
  | Severity.warning => 10
  | Severity.info => 5

/-- Total severity weight of an issue list. -/
def issueWeight (issues : List Issue) : Nat :=
  (issues.map (fun i => severityWeight i.severity)).sum

/-- Modelled from the spec: documentation bonus — +5 when doc-comments are
present above a 10% density threshold (documented constants). -/
def docBonus (m : Metrics) : Nat :=
  if 0 < m.comment_lines && m.non_empty_lines ≤ 10 * m.comment_lines then 5
  else 0

/-- Modelled from the spec: the score formula
`clamp(100 − Σ severity_weight(issue) + documentation_bonus, 0, 100)`. -/
def computeScore (m : Metrics) (issues : List Issue) : Nat :=
  (max 0 (min 100 (100 - (issueWeight issues : Int) + (docBonus m : Int)))).toNat

/-- Modelled from the spec: fixed suggestion strings keyed to which
detector categories fired. -/
def suggestionsFor (unusedImp secrets longLines missingDoc : Bool) : List String :=
  (if secrets then ["Use environment variables for secrets"] else []) ++
  (if unusedImp then ["Remove unused imports"] else []) ++
  (if longLines then ["Break long lines to improve readability"] else []) ++
  (if missingDoc then ["Add doc comments to classes and functions"] else [])

/-- Score band of the one-line summary (FEATURES doc bands). -/
def scoreBand (s : Nat) : String :=
  if 80 ≤ s then "good"
  else if 60 ≤ s then "fair"
  else if 40 ≤ s then "needs improvement"
  else "poor"

/-- Modelled from the spec: the single-file analyze operation — detect the
language, compute Metrics, run the fixed battery of detectors (issues in
detector-declaration order, each detector emitting in ascending line
order), compute the clamped score, produce suggestions and the one-line
summary. -/
def analyzeFile (filename content : String) : Analysis :=
  let language := detectLanguage filename
  let lines := splitS '\n' content
  let m := computeMetrics language lines
  let unusedImp := unusedImportIssues lines
  let secrets := hardcodedSecretIssues lines
  let longLines := lineLengthIssues lines
  let missingDoc := missingDocIssues language lines
  let issues := unusedImp ++ secrets ++ longLines ++ missingDoc
  let score := computeScore m issues
  { filename := filename
    language := language
    quality_score := score
    summary := filename ++ " (" ++ language ++ "): " ++ scoreBand score
    metrics := m
    issues := issues
    suggestions :=
      suggestionsFor (!unusedImp.isEmpty) (!secrets.isEmpty)
        (!longLines.isEmpty) (!missingDoc.isEmpty) }

/-- Result of analyzing a project: aggregate over many source files. -/
structure ProjectAnalysis where
  project : String
  files_analyzed : Nat
  total_lines : Nat
  total_issues : Nat
  languages : List (String × Nat)
  issues : List Issue
  recommendations : List String
deriving DecidableEq, Repr

/-- True when a file's analysis holds at least one critical issue. -/
def fileHasCritical (a : Analysis) : Bool :=
  a.issues.any (fun i => decide (i.severity = Severity.critical))

/-- Modelled from the spec: recommendations from a small fixed rule set
over aggregate statistics (more than 10% of files with critical issues,
and presence of poorly scoring files). -/
def recommendationsFor (analyses : List Analysis) : List String :=
  (if analyses.length < 10 * (analyses.filter fileHasCritical).length then
    ["Address hardcoded secrets and other critical issues first"]
   else []) ++
  (if analyses.any (fun a => decide (a.quality_score < 40)) then
    ["Refactor the lowest-scoring files"]
   else [])

/-- Modelled from the spec: the project analyze operation. The external
file walker supplies `files` in discovery order, each filename paired with
`some content` when the file decodes as text and `none` when it does not.
A file that fails to decode is skipped and not counted; the remaining
files run through the single-file engine. Per-language counts group the
analyzed files by detected language; the merged issue list tags each issue
with its source file path, concatenated in file-discovery order and
truncated to the first 20 for display. -/
def analyzeProject (project : String) (files : List (String × Option String)) :
    ProjectAnalysis :=
  let decoded := files.filterMap (fun p => p.2.map (fun c => (p.1, c)))
  let analyses := decoded.map (fun p => analyzeFile p.1 p.2)
  let langs := decoded.map (fun p => detectLanguage p.1)
  { project := project
    files_analyzed := decoded.length
    total_lines := (analyses.map (fun a => a.metrics.total_lines)).sum
    total_issues := (analyses.map (fun a => a.issues.length)).sum
    languages := langs.dedup.map (fun l => (l, langs.count l))
    issues :=
      ((analyses.map (fun a =>
        a.issues.map (fun i => { i with file := some a.filename }))).flatten).take 20
    recommendations := recommendationsFor analyses }

/-! Frontend models, embedded from the sources under `frontend/src`. -/

/-- An issue as it appears in a project-analysis response rendered by the
frontend (`severity` arrives as a plain string in the JSON). -/
structure RespIssue where
  file : Option String
  line : Option Nat
  severity : String
  message : String
deriving DecidableEq, Repr

/-- One rendered row of the issues table of `displayProjectAnalysis`. -/
structure IssueRow where
  file : String
  line : String
  severity : String
  message : String
deriving DecidableEq, Repr

/-- The table row `displayProjectAnalysis` builds for one issue
(`analyzer.js`, lines 156-167): `issue.file || 'unknown'` and
`issue.line || '-'`, with JavaScript falsiness (the empty string and 0
count as absent). -/
def rowOfIssue (i : RespIssue) : IssueRow :=
  { file :=
      match i.file with
      | some f => if f = "" then "unknown" else f
      | none => "unknown"
    line :=
      match i.line with
      | some n => if n = 0 then "-" else toString n
      | none => "-"
    severity := i.severity
    message := i.message }

/-- The ordered list of issue rows `displayProjectAnalysis` renders:
`issues.slice(0, 20).forEach(...)` (`analyzer.js`, line 149). -/
def displayedIssueRows (issues : List RespIssue) : List IssueRow :=
  (issues.take 20).map rowOfIssue

/-- The per-character replacement of `escapeHtml`
(`frontend/src/utils/ui.js`, lines 253-262). -/
def escapeChar (c : Char) : String :=
  if c = '&' then "&amp;"
  else if c = '<' then "&lt;"
  else if c = '>' then "&gt;"
  else if c = '"' then "&quot;"
  else if c = Char.ofNat 39 then "&#039;"
  else String.singleton c

/-- Helper: escape a list of characters, concatenating the replacements. -/
def escapeList : List Char → String
  | [] => ""
  | c :: cs => escapeChar c ++ escapeList cs

/-- `escapeHtml`: `text.replace(/[&<>"']/g, m => map[m])` — every
occurrence of one of the five special characters is replaced by its HTML
entity, all other characters pass through unchanged. -/
def escapeHtml (s : String) : String :=
  escapeList s.data

/-- A message as rendered in the chat transcript: `role` is the CSS class
of the `.message` element ("user", "assistant" or "system"). -/
structure RenderedMsg where
  role : String
  content : String
deriving DecidableEq, Repr

/-- A message record as persisted to `localStorage` by `saveChatHistory`. -/
structure SavedMsg where
  role : String
  content : String
  timestamp : String
deriving DecidableEq, Repr

/-- `ChatComponent.saveChatHistory` (`part_005`, lines 159-168): every
rendered `.message` element is saved with role "user" when its class list
contains "user" and "assistant" otherwise, with its text content and the
current timestamp. -/
def saveChatHistory (now : String) (transcript : List RenderedMsg) :
    List SavedMsg :=
  transcript.map (fun m =>
    { role := if m.role = "user" then "user" else "assistant"
      content := m.content
      timestamp := now })

/-- The observable state `ChatComponent.sendMessage` reads and writes: the
chat input field, the rendered transcript, the persisted history, and the
log of chat API requests issued. -/
structure ChatState where
  inputValue : String
  inputHeight : String
  transcript : List RenderedMsg
  storedHistory : Option (List SavedMsg)
  apiCalls : List String
deriving DecidableEq, Repr

/-- Outcome of the awaited `api.sendMessage` call: a success payload, a
non-success status with a message, or a thrown connection error. -/
inductive ChatResponse
  | succeeded (text : String)
  | failed (message : String)
  | connError (message : String)
deriving DecidableEq, Repr

/-- `ChatComponent.sendMessage` (`part_005`, lines 43-70): trim the input;
an empty result returns at once. Otherwise the user message is appended to
the transcript, the input is cleared (height reset to "auto"), the API
request is issued, and depending on the response an assistant message is
appended and the history saved, or a system error message is appended. -/
def sendMessage (now : String) (resp : ChatResponse) (st : ChatState) :
    ChatState :=
  let message := trimS st.inputValue
  if message = "" then st
  else
    let st1 : ChatState :=
      { st with
        transcript := st.transcript ++ [{ role := "user", content := message }]
        inputValue := ""
        inputHeight := "auto"
        apiCalls := st.apiCalls ++ [message] }
    match resp with
    | ChatResponse.succeeded text =>
      let st2 : ChatState :=
        { st1 with
          transcript := st1.transcript ++ [{ role := "assistant", content := text }] }
      { st2 with storedHistory := some (saveChatHistory now st2.transcript) }
    | ChatResponse.failed m =>
      { st1 with
        transcript := st1.transcript ++ [{ role := "system", content := "Error: " ++ m }] }
    | ChatResponse.connError m =>
      { st1 with
        transcript :=
          st1.transcript ++ [{ role := "system", content := "Connection error: " ++ m }] }

/-! Theorems. -/

/-- Helper: the clamped score never exceeds 100. -/
theorem computeScore_le_100 (m : Metrics) (issues : List Issue) :
    computeScore m issues ≤ 100 := by
  unfold computeScore
  omega

/-- Helper: the score is exactly the clamp formula
`clamp(100 − Σ severity_weight(issue) + documentation_bonus, 0, 100)`. -/
theorem computeScore_formula (m : Metrics) (issues : List Issue) :
    computeScore m issues =
      (max 0 (min 100 (100 -
        ((issues.map (fun i => (severityWeight i.severity : Int))).sum) +
        (docBonus m : Int)))).toNat := by
  unfold computeScore issueWeight
  rw [Nat.cast_list_sum, List.map_map]
  rfl

/-- C1: for every valid text input (any filename and content), the quality
score of the Analysis produced by the single-file analyze operation
satisfies `0 ≤ quality_score ≤ 100`. -/
theorem quality_score_in_range (filename content : String) :
    0 ≤ (analyzeFile filename content).quality_score ∧
    (analyzeFile filename content).quality_score ≤ 100 :=
  ⟨Nat.zero_le _, computeScore_le_100 _ _⟩

/-- C2: the single-file analyze operation is deterministic — two runs on
identical (filename, content) pairs yield identical Analysis output (the
same issues in the same order, the same score, the same summary band). -/
theorem analysis_deterministic (f1 c1 f2 c2 : String)
    (hf : f1 = f2) (hc : c1 = c2) :
    analyzeFile f1 c1 = analyzeFile f2 c2 := by
  subst hf
  subst hc
  rfl

/-- C2 witness: two runs on a concrete identical input coincide. -/
theorem analysis_deterministic_witness :
    analyzeFile "app.py" "password = \"admin123\"\n" =
      analyzeFile "app.py" "password = \"admin123\"\n" :=
  analysis_deterministic "app.py" "password = \"admin123\"\n"
    "app.py" "password = \"admin123\"\n" rfl rfl

/-- C3: the score is `clamp(100 − Σ severity_weight + documentation_bonus,
0, 100)` with fixed severity weights ordered critical > warning > info,
and adding one more critical issue to otherwise-identical input never
increases the score. -/
theorem score_formula_and_monotonicity :
    (severityWeight Severity.info < severityWeight Severity.warning ∧
      severityWeight Severity.warning < severityWeight Severity.critical) ∧
    (∀ filename content,
      (analyzeFile filename content).quality_score =
        (max 0 (min 100 (100 -
          (((analyzeFile filename content).issues.map
              (fun i => (severityWeight i.severity : Int))).sum) +
          (docBonus (analyzeFile filename content).metrics : Int)))).toNat) ∧
    (∀ m issues extra, extra.severity = Severity.critical →
      computeScore m (extra :: issues) ≤ computeScore m issues) := by
  refine ⟨⟨by decide, by decide⟩, ?_, ?_⟩
  · intro filename content
    exact computeScore_formula _ _
  · intro m issues extra h
    unfold computeScore issueWeight
    simp only [List.map_cons, List.sum_cons, h, severityWeight]
    omega

/-- C3 witness: one concrete critical issue drops a concrete score. -/
theorem score_formula_and_monotonicity_witness :
    computeScore
        { total_lines := 4, non_empty_lines := 3, comment_lines := 0,
          average_line_length := 10 }
        [{ severity := Severity.critical, line := some 4,
           message := "Hardcoded secret detected", file := none }] ≤
      computeScore
        { total_lines := 4, non_empty_lines := 3, comment_lines := 0,
          average_line_length := 10 } [] :=
  score_formula_and_monotonicity.2.2 _ _ _ rfl

/-- Helper: summing each dedup-representative's count recovers the
length. -/
theorem sum_counts_dedup {α : Type} [DecidableEq α] (l : List α) :
    ((l.dedup.map (fun x => (x, l.count x))).map Prod.snd).sum = l.length := by
  rw [List.map_map]
  exact List.sum_map_count_dedup_eq_length l

/-- C4: for every ProjectAnalysis, the per-language file counts sum to the
number of files analyzed. -/
theorem languages_sum_eq_files_analyzed (project : String)
    (files : List (String × Option String)) :
    (((analyzeProject project files).languages).map Prod.snd).sum =
      (analyzeProject project files).files_analyzed := by
  have h := sum_counts_dedup
    ((files.filterMap (fun p => p.2.map (fun c => (p.1, c)))).map
      (fun p => detectLanguage p.1))
  simpa [analyzeProject] using h

/-- Helper: the decoded-file list is as long as the count of files whose
content decodes. -/
theorem decoded_length_eq (files : List (String × Option String)) :
    (files.filterMap (fun p => p.2.map (fun c => (p.1, c)))).length =
      (files.filter (fun p => p.2.isSome)).length := by
  induction files with
  | nil => rfl
  | cons p ps ih =>
    rcases h : p.2 with _ | c <;>
      simp [List.filterMap_cons, List.filter_cons, h, ih]

/-- C5: a file that fails to decode is skipped and not counted rather than
aborting the scan; in particular one undecodable binary file next to two
valid text files yields `files_analyzed = 2` (the aggregator is a total
function, so no error is raised). -/
theorem undecodable_files_skipped :
    (∀ project files,
      (analyzeProject project files).files_analyzed =
        (files.filter (fun p => p.2.isSome)).length) ∧
    (analyzeProject "demo"
        [("blob.bin", none), ("a.py", some "import os\n"),
         ("b.txt", some "hello\n")]).files_analyzed = 2 := by
  constructor
  · intro project files
    simpa [analyzeProject] using decoded_length_eq files
  · rfl

/-- C6 counterexample: two concrete inputs refute the claim as stated.
The dotless filename "py" has no extension at all, yet the function
returns "python" — the code keys its table on the last dot-separated
segment, which for a dotless name is the whole name. And the filename
"x.constructor" has the extension "constructor", which is not in the
static table, yet the index access hits the property inherited from
`Object.prototype`, so the truthy inherited value is returned and
`|| 'text'` never fires. -/
theorem getLanguageFromFile_counterexample :
    (('.' ∉ "py".data) ∧
      getLanguageFromFile "py" = JsLookupResult.str "python" ∧
      getLanguageFromFile "py" ≠ JsLookupResult.str "text") ∧
    (extensionTable.lookup (extOf "x.constructor") = none ∧
      getLanguageFromFile "x.constructor" =
        JsLookupResult.inheritedProp "constructor" ∧
      getLanguageFromFile "x.constructor" ≠ JsLookupResult.str "text") := by
  decide

/-- C6 (amended): the function maps a filename through the static
extension table keyed on the lowercased last dot-separated segment of
the filename (the whole name when there is no dot); whenever that key is
neither in the table nor a property name inherited from
`Object.prototype`, it falls back to "text" rather than failing. -/
theorem unknown_extension_falls_back_to_text (filename : String)
    (h1 : extensionTable.lookup (extOf filename) = none)
    (h2 : objectPrototypeKeys.any (fun k => decide (k = extOf filename)) = false) :
    getLanguageFromFile filename = JsLookupResult.str "text" := by
  simp [getLanguageFromFile, h1, h2]

/-- C6 witness: a concrete unknown, non-inherited extension maps to
"text". -/
theorem unknown_extension_falls_back_to_text_witness :
    getLanguageFromFile "archive.xyz" = JsLookupResult.str "text" :=
  unknown_extension_falls_back_to_text "archive.xyz" (by decide) (by decide)

/-- C7: the issue list of a project-analysis response is truncated for
display to the first 20 issues in response order — rendered rows are the
row images of the first `min 20 n` issues in order, and no issue past
index 19 is rendered. -/
theorem project_issues_display_truncated (issues : List RespIssue) :
    displayedIssueRows issues = (issues.map rowOfIssue).take 20 ∧
    (displayedIssueRows issues).length = min 20 issues.length ∧
    (∀ j, j < 20 →
      (displayedIssueRows issues)[j]? = (issues[j]?).map rowOfIssue) ∧
    (∀ j, 20 ≤ j → (displayedIssueRows issues)[j]? = none) := by
  refine ⟨List.map_take _ _ _, by simp [displayedIssueRows], ?_, ?_⟩
  · intro j hj
    simp [displayedIssueRows, List.getElem?_take_of_lt hj]
  · intro j hj
    refine List.getElem?_eq_none ?_
    simp only [displayedIssueRows, List.length_map, List.length_take]
    omega

/-- C7 witness: on a 25-issue response the 21st row does not exist and the
first row is the first issue's row. -/
theorem project_issues_display_truncated_witness :
    (displayedIssueRows (List.replicate 25
        { file := none, line := none, severity := "info",
          message := "m" }))[20]? = none :=
  (project_issues_display_truncated _).2.2.2 20 (by decide)

/-- Helper: each single-character replacement of `escapeHtml` emits none
of the four dangerous literal characters. -/
theorem escapeChar_safe (c : Char) :
    ∀ d ∈ (escapeChar c).data,
      d ≠ '<' ∧ d ≠ '>' ∧ d ≠ '"' ∧ d ≠ Char.ofNat 39 := by
  unfold escapeChar
  split_ifs with h1 h2 h3 h4 h5
  · decide
  · decide
  · decide
  · decide
  · decide
  · intro d hd
    have hd' : d ∈ [c] := hd
    rcases List.mem_singleton.mp hd' with rfl
    exact ⟨h2, h3, h4, h5⟩

/-- Helper: `escapeList` output has no dangerous literal characters. -/
theorem escapeList_safe (l : List Char) :
    ∀ d ∈ (escapeList l).data,
      d ≠ '<' ∧ d ≠ '>' ∧ d ≠ '"' ∧ d ≠ Char.ofNat 39 := by
  induction l with
  | nil =>
    intro d hd
    have hnil : d ∈ ([] : List Char) := hd
    exact absurd hnil (List.not_mem_nil d)
  | cons a l ih =>
    intro d hd
    have hsplit : d ∈ (escapeChar a).data ++ (escapeList l).data := by
      simpa [escapeList] using hd
    rcases List.mem_append.mp hsplit with h | h
    · exact escapeChar_safe a d h
    · exact ih d h

/-- C8: `escapeHtml` replaces every occurrence of the five special
characters with its HTML entity, so its output contains no literal `<`,
`>`, double-quote or apostrophe character. -/
theorem escapeHtml_output_has_no_specials (s : String) :
    ∀ c ∈ (escapeHtml s).data,
      c ≠ '<' ∧ c ≠ '>' ∧ c ≠ '"' ∧ c ≠ Char.ofNat 39 :=
  escapeList_safe s.data

/-- C8 witness: a character of the escaped form of a concrete input is
none of the dangerous literals. -/
theorem escapeHtml_output_has_no_specials_witness :
    'a' ≠ '<' ∧ 'a' ≠ '>' ∧ 'a' ≠ '"' ∧ 'a' ≠ Char.ofNat 39 :=
  escapeHtml_output_has_no_specials "<a>" 'a' (by decide)

/-- C9: when the chat input trims to the empty string, `sendMessage`
returns without changing anything: no API request is issued, no message is
appended to the transcript, and the input field and the stored history are
untouched. -/
theorem sendMessage_empty_input_noop (now : String) (resp : ChatResponse)
    (st : ChatState) (h : trimS st.inputValue = "") :
    sendMessage now resp st = st := by
  simp [sendMessage, h]

/-- C9 witness: a whitespace-only input leaves a concrete state intact. -/
theorem sendMessage_empty_input_noop_witness :
    sendMessage "2024-01-01T00:00:00Z" (ChatResponse.succeeded "hi")
        { inputValue := "   ", inputHeight := "auto", transcript := [],
          storedHistory := none, apiCalls := [] } =
      { inputValue := "   ", inputHeight := "auto", transcript := [],
        storedHistory := none, apiCalls := [] } :=
  sendMessage_empty_input_noop "2024-01-01T00:00:00Z"
    (ChatResponse.succeeded "hi")
    { inputValue := "   ", inputHeight := "auto", transcript := [],
      storedHistory := none, apiCalls := [] } (by decide)

/-- C10: every message record persisted by `saveChatHistory` has role
"user" or "assistant" — never "system"; a rendered message not marked as a
user message (system messages included) is saved with role "assistant". -/
theorem saved_history_roles (now : String) (transcript : List RenderedMsg) :
    ∀ r ∈ saveChatHistory now transcript,
      (r.role = "user" ∨ r.role = "assistant") ∧ r.role ≠ "system" := by
  intro r hr
  simp only [saveChatHistory, List.mem_map] at hr
  obtain ⟨m, hm, rfl⟩ := hr
  by_cases h : m.role = "user" <;> simp [h]

/-- C10 witness: a rendered system message is persisted with role
"assistant". -/
theorem saved_history_roles_witness :
    ((({ role := "assistant", content := "boom",
         timestamp := "t0" } : SavedMsg).role = "user" ∨
      ({ role := "assistant", content := "boom",
         timestamp := "t0" } : SavedMsg).role = "assistant") ∧
      ({ role := "assistant", content := "boom",
         timestamp := "t0" } : SavedMsg).role ≠ "system") :=
  saved_history_roles "t0" [{ role := "system", content := "boom" }]
    { role := "assistant", content := "boom", timestamp := "t0" } (by decide)

end CodeAgent
